import Mathlib

/-!
Verification development for the `uppy` upload utility (src/src/main.rs).

The program is shallowly embedded: external effects (filesystem, HTTP,
clipboard, stdin) are supplied through an environment record, and the
program's observable behaviour (messages printed, clipboard writes,
filesystem changes, panics) is collected in a trace. All definitions are
translated directly from the Rust source.
-/

namespace Uppy

/-! ## MD5 (semantics of the `md5` crate's `Md5` hasher used in `file_cleanup`)

Bytes are `Nat` values below 256; 32-bit words are `Nat` values reduced
modulo 2^32 at every arithmetic step. -/

def mask32 (x : Nat) : Nat := x % 4294967296

def rotl32 (x n : Nat) : Nat :=
  mask32 ((x <<< n) ||| (x >>> (32 - n)))

/-- The 64 round constants of MD5. -/
def md5K : List Nat :=
  [0xd76aa478, 0xe8c7b756, 0x242070db, 0xc1bdceee,
   0xf57c0faf, 0x4787c62a, 0xa8304613, 0xfd469501,
   0x698098d8, 0x8b44f7af, 0xffff5bb1, 0x895cd7be,
   0x6b901122, 0xfd987193, 0xa679438e, 0x49b40821,
   0xf61e2562, 0xc040b340, 0x265e5a51, 0xe9b6c7aa,
   0xd62f105d, 0x02441453, 0xd8a1e681, 0xe7d3fbc8,
   0x21e1cde6, 0xc33707d6, 0xf4d50d87, 0x455a14ed,
   0xa9e3e905, 0xfcefa3f8, 0x676f02d9, 0x8d2a4c8a,
   0xfffa3942, 0x8771f681, 0x6d9d6122, 0xfde5380c,
   0xa4beea44, 0x4bdecfa9, 0xf6bb4b60, 0xbebfbc70,
   0x289b7ec6, 0xeaa127fa, 0xd4ef3085, 0x04881d05,
   0xd9d4d039, 0xe6db99e5, 0x1fa27cf8, 0xc4ac5665,
   0xf4292244, 0x432aff97, 0xab9423a7, 0xfc93a039,
   0x655b59c3, 0x8f0ccc92, 0xffeff47d, 0x85845dd1,
   0x6fa87e4f, 0xfe2ce6e0, 0xa3014314, 0x4e0811a1,
   0xf7537e82, 0xbd3af235, 0x2ad7d2bb, 0xeb86d391]

/-- The 64 per-round left-rotation amounts of MD5. -/
def md5S : List Nat :=
  [7, 12, 17, 22, 7, 12, 17, 22, 7, 12, 17, 22, 7, 12, 17, 22,
   5, 9, 14, 20, 5, 9, 14, 20, 5, 9, 14, 20, 5, 9, 14, 20,
   4, 11, 16, 23, 4, 11, 16, 23, 4, 11, 16, 23, 4, 11, 16, 23,
   6, 10, 15, 21, 6, 10, 15, 21, 6, 10, 15, 21, 6, 10, 15, 21]

structure MD5State where
  a : Nat
  b : Nat
  c : Nat
  d : Nat
deriving Repr, DecidableEq

def md5Init : MD5State :=
  ⟨0x67452301, 0xefcdab89, 0x98badcfe, 0x10325476⟩

/-- The nonlinear function of round `i` applied to words `b`, `c`, `d`. -/
def md5F (i b c d : Nat) : Nat :=
  if i < 16 then (b &&& c) ||| ((b ^^^ 4294967295) &&& d)
  else if i < 32 then (d &&& b) ||| ((d ^^^ 4294967295) &&& c)
  else if i < 48 then b ^^^ c ^^^ d
  else c ^^^ (b ||| (d ^^^ 4294967295))

/-- The message-word index used in round `i`. -/
def md5G (i : Nat) : Nat :=
  if i < 16 then i % 16
  else if i < 32 then (5 * i + 1) % 16
  else if i < 48 then (3 * i + 5) % 16
  else (7 * i) % 16

/-- One of the 64 rounds of the MD5 compression function; `m` is the
current 16-word message block. -/
def md5Round (m : List Nat) (st : MD5State) (i : Nat) : MD5State :=
  let f := md5F i st.b st.c st.d
  let g := md5G i
  let tmp := mask32 (f + st.a + md5K.getD i 0 + m.getD g 0)
  ⟨st.d, mask32 (st.b + rotl32 tmp (md5S.getD i 0)), st.b, st.c⟩

/-- Split a list into chunks of size `n + 1` (the successor guarantees
progress); used for 64-byte blocks and 4-byte words. -/
def chunksOf1 (n : Nat) : List α → List (List α)
  | [] => []
  | x :: xs => (x :: xs.take n) :: chunksOf1 n (xs.drop n)
termination_by l => l.length
decreasing_by simp [List.length_drop]; omega

/-- Assemble little-endian 32-bit words from a byte list. -/
def wordsLE : List Nat → List Nat
  | b0 :: b1 :: b2 :: b3 :: rest =>
      (b0 + 256 * b1 + 65536 * b2 + 16777216 * b3) :: wordsLE rest
  | _ => []

/-- The lowest `count` bytes of `x`, little-endian. -/
def toBytesLE (count x : Nat) : List Nat :=
  match count with
  | 0 => []
  | c + 1 => (x % 256) :: toBytesLE c (x / 256)

/-- MD5 padding: a 0x80 byte, zeros up to 56 mod 64, then the bit length
as 8 little-endian bytes. -/
def padMsg (msg : List Nat) : List Nat :=
  let len := msg.length
  let zeros := (120 - (len + 1) % 64) % 64
  msg ++ [128] ++ List.replicate zeros 0 ++ toBytesLE 8 (len * 8)

/-- Process one 64-byte block. -/
def md5Block (st : MD5State) (block : List Nat) : MD5State :=
  let m := wordsLE block
  let r := (List.range 64).foldl (md5Round m) st
  ⟨mask32 (st.a + r.a), mask32 (st.b + r.b), mask32 (st.c + r.c),
   mask32 (st.d + r.d)⟩

/-- The 16-byte MD5 digest of a byte list. -/
def md5Bytes (msg : List Nat) : List Nat :=
  let final := (chunksOf1 63 (padMsg msg)).foldl md5Block md5Init
  toBytesLE 4 final.a ++ toBytesLE 4 final.b ++
    toBytesLE 4 final.c ++ toBytesLE 4 final.d

def hexDigitChar (n : Nat) : Char :=
  if n < 10 then Char.ofNat (48 + n) else Char.ofNat (87 + n)

def byteToHex (b : Nat) : List Char :=
  [hexDigitChar (b / 16), hexDigitChar (b % 16)]

/-- The lowercase hex rendering of the MD5 digest, as produced by the
source's format specifier on the finalized digest. -/
def md5Hex (msg : List Nat) : String :=
  String.mk ((md5Bytes msg).flatMap byteToHex)

/-- The read loop of `file_cleanup` (src lines 109-121): repeatedly read
up to `n + 1` bytes from the remaining file content and feed them to the
hasher; `absorbed` is the byte stream the hasher has absorbed so far.
The source uses a 1024-byte buffer, i.e. `n = 1023`. -/
def md5Loop (n : Nat) (absorbed : List Nat) : List Nat → List Nat
  | [] => absorbed
  | x :: xs => md5Loop n (absorbed ++ x :: xs.take n) (xs.drop n)
termination_by l => l.length
decreasing_by simp [List.length_drop]; omega

/-! ## Data model (src lines 21-44) -/

/-- `struct Configuration` (src lines 21-25). -/
structure Configuration where
  host : String
  token : String
deriving Repr, DecidableEq

/-- A completed HTTP response: its status code and the text body that
`res.text()` yields. -/
structure HttpResponse where
  status : Nat
  body : String
deriving Repr, DecidableEq

/-- `enum UploadResult` (src lines 32-38). `Success` carries the response;
error payloads are the error's display string. -/
inductive UploadResult where
  | Success (res : HttpResponse)
  | IOError (err : String)
  | ReqwestError (err : String)
  | HTTPClientError (code : Nat)
  | HTTPServerError (code : Nat)
deriving Repr, DecidableEq

/-- `enum DeletionChoice` (src lines 40-44). -/
inductive DeletionChoice where
  | Yes
  | No
  | InvalidChoice
deriving Repr, DecidableEq

/-! ## upload_file (src lines 64-89) -/

/-- `reqwest::StatusCode::is_client_error`: 400 ≤ code ≤ 499. -/
def is_client_error (s : Nat) : Bool := 400 ≤ s && s < 500

/-- `reqwest::StatusCode::is_server_error`: 500 ≤ code ≤ 599. -/
def is_server_error (s : Nat) : Bool := 500 ≤ s && s < 600

instance [DecidableEq ε] [DecidableEq α] : DecidableEq (Except ε α) := fun a b =>
  match a, b with
  | .error x, .error y =>
    if h : x = y then isTrue (h ▸ rfl)
    else isFalse (fun hh => h (Except.error.inj hh))
  | .ok x, .ok y =>
    if h : x = y then isTrue (h ▸ rfl)
    else isFalse (fun hh => h (Except.ok.inj hh))
  | .error _, .ok _ => isFalse (fun hh => Except.noConfusion hh)
  | .ok _, .error _ => isFalse (fun hh => Except.noConfusion hh)

/-- The external results `upload_file` depends on: whether building the
multipart form succeeded, and the result of sending the request. -/
structure UploadEnv where
  formResult : Except String Unit
  sendResult : Except String HttpResponse
deriving Repr, DecidableEq

/-- `upload_file` (src lines 64-89): form failure is returned first, then
a failed send, then a 4xx status, then a 5xx status, else success. -/
def upload_file (env : UploadEnv) : UploadResult :=
  match env.formResult with
  | .error err => .IOError err
  | .ok _ =>
    match env.sendResult with
    | .error err => .ReqwestError err
    | .ok res =>
      if is_client_error res.status then .HTTPClientError res.status
      else if is_server_error res.status then .HTTPServerError res.status
      else .Success res

/-! ## The deletion prompt parse (src lines 97-101) -/

/-- `buf.trim().to_lowercase()`: whitespace stripped from both ends, then
every character lowercased. -/
def rustTrimLower (buf : String) : String :=
  String.mk
    ((((buf.data.dropWhile Char.isWhitespace).reverse.dropWhile
        Char.isWhitespace).reverse).map Char.toLower)

/-- The match on `buf.trim().to_lowercase().as_str()` in `file_cleanup`
(src lines 97-101). -/
def parseDeletionChoice (buf : String) : DeletionChoice :=
  match rustTrimLower buf with
  | "yes" | "y" => DeletionChoice.Yes
  | "no" | "n" => DeletionChoice.No
  | _ => DeletionChoice.InvalidChoice

/-! ## Filesystem model -/

/-- The filesystem: an association of paths to byte contents. -/
def FS : Type := List (String × List Nat)

instance : DecidableEq FS := by unfold FS; exact inferInstance

/-- Look up a file's content. -/
def fsLookup (fs : FS) (p : String) : Option (List Nat) :=
  List.lookup p fs

/-- Remove a path's entry. -/
def fsRemove (fs : FS) (p : String) : FS :=
  List.filter (fun e => e.1 ≠ p) fs

/-! ## Observable messages and traces -/

/-- The kinds of message the program prints (payloads kept only where a
claim depends on them). -/
inductive Msg where
  | promptDelete
  | fileDeleted
  | renameError
  | invalidChoice
  | configDirCreated
  | configReadError
  | currentDirError
  | uploadedUrl (u : String)
  | copiedClipboard
  | clipboardError
  | ioError (e : String)
  | transportError (e : String)
  | clientError (code : Nat)
  | serverError (code : Nat)
deriving Repr, DecidableEq

/-- How the process ended: a normal return or a panic. -/
inductive ExitKind where
  | normal
  | panicked (msg : String)
deriving Repr, DecidableEq

/-- Everything external the program consults during a run. -/
structure MainEnv where
  /-- Whether the per-user config directory already exists
  (`fs::create_dir` succeeds exactly when it does not). -/
  configDirExists : Bool
  /-- Whether writing the template config file succeeds. -/
  writeConfigOk : Bool
  /-- `fs::read_to_string` on the config file: `none` is a read failure. -/
  readFileResult : Option String
  /-- The serde parse of the config file content: `none` is a parse
  failure. -/
  configParse : Option Configuration
  /-- The process argument list (`env::args()`), program name included. -/
  args : List String
  /-- `env::current_dir()`: `none` is a failure. -/
  currentDir : Option String
  /-- Whether building the multipart form succeeded. -/
  formResult : Except String Unit
  /-- The result of sending the HTTP request. -/
  sendResult : Except String HttpResponse
  /-- The serde parse of the response body into `JSONResponse.files`:
  `none` is a parse failure. -/
  parseFiles : Option (List String)
  /-- Whether `set_clipboard` succeeds. -/
  clipboardOk : Bool
  /-- The line read from stdin by the cleanup prompt. -/
  stdinLine : String
  /-- Whether `fs::rename` into the temp dir succeeds. -/
  renameOk : Bool
  /-- `env::temp_dir()`. -/
  tempDir : String
  /-- The filesystem at the start of the run. -/
  fs : FS
deriving DecidableEq

/-- A value of `serde_json::Result` as produced by a function that may
also panic on the way. -/
inductive PanicOr (α : Type) where
  | panicked (msg : String)
  | ret (v : α)
deriving Repr, DecidableEq

/-! ## read_config (src lines 46-51) -/

/-- `read_config` (src lines 46-51): both the file read and the JSON
parse are unwrapped with `expect`, so each failure panics; on success the
configuration is returned inside `Ok`. -/
def read_config (env : MainEnv) : PanicOr (Except String Configuration) :=
  match env.readFileResult with
  | none => .panicked "Failed to read file"
  | some _ =>
    match env.configParse with
    | none => .panicked "JSON file is not formatted properly"
    | some c => .ret (Except.ok c)

/-! ## file_cleanup (src lines 91-138) -/

/-- The observable result of `file_cleanup`. -/
structure CleanupResult where
  fs : FS
  stdout : List Msg
  stderr : List Msg
  exit : ExitKind
deriving DecidableEq

/-- `file_cleanup` (src lines 91-138): prompt, parse one stdin line into
a `DeletionChoice`; on `Yes` open the file (`unwrap` panics when that
fails), hash its content in 1024-byte chunks, and rename it to
`temp_dir/{digest}.tmp`; on `No` do nothing; on `InvalidChoice` print an
error to stderr. -/
def file_cleanup (env : MainEnv) (fs : FS) (file : String) : CleanupResult :=
  match parseDeletionChoice env.stdinLine with
  | .Yes =>
    match fsLookup fs file with
    | none => ⟨fs, [.promptDelete], [], .panicked "called unwrap on an Err value"⟩
    | some content =>
      let digest := md5Hex (md5Loop 1023 [] content)
      let tempPath := env.tempDir ++ "/" ++ digest ++ ".tmp"
      if env.renameOk then
        ⟨(tempPath, content) :: fsRemove fs file,
         [.promptDelete, .fileDeleted], [], .normal⟩
      else
        ⟨fs, [.promptDelete, .renameError], [], .normal⟩
  | .No => ⟨fs, [.promptDelete], [], .normal⟩
  | .InvalidChoice => ⟨fs, [.promptDelete], [.invalidChoice], .normal⟩

/-! ## main (src lines 140-229) -/

/-- The observable trace of a whole run. -/
structure Trace where
  stdout : List Msg
  stderr : List Msg
  /-- The clipboard content at exit; `none` when no write happened. -/
  clipboard : Option String
  /-- The text written to the config file, when the template was written. -/
  configFileWritten : Option String
  fs : FS
  /-- Whether `upload_file` was called during the run. -/
  uploadCalled : Bool
  exit : ExitKind
deriving DecidableEq

/-- The template configuration written on first run (src lines 146-150),
as pretty-printed by the source. -/
def templateJson : String :=
  "\x7b\n  \"host\": \"https://\",\n  \"token\": \"\"\n\x7d"

/-- `main` (src lines 140-229) as a function from the environment to the
observable trace. -/
def mainRun (env : MainEnv) : Trace :=
  if env.configDirExists then
    match read_config env with
    | .panicked m => ⟨[], [], none, none, env.fs, false, .panicked m⟩
    | .ret (.error _) =>
      ⟨[], [.configReadError], none, none, env.fs, false, .normal⟩
    | .ret (.ok _) =>
      match env.args[1]? with
      | none => ⟨[], [], none, none, env.fs, false,
                 .panicked "index out of bounds"⟩
      | some fileArg =>
        match env.currentDir with
        | none => ⟨[], [.currentDirError], none, none, env.fs, false, .normal⟩
        | some cwd =>
          let target := cwd ++ "/" ++ fileArg
          match upload_file ⟨env.formResult, env.sendResult⟩ with
          | .Success _ =>
            match env.parseFiles with
            | none => ⟨[], [], none, none, env.fs, true,
                       .panicked "Failed to deserialise JSON response"⟩
            | some files =>
              if files.length = 1 then
                match files.getLast? with
                | none => ⟨[], [], none, none, env.fs, true,
                           .panicked "called unwrap on a None value"⟩
                | some url =>
                  if env.clipboardOk then
                    let c := file_cleanup env env.fs target
                    ⟨[.uploadedUrl url, .copiedClipboard] ++ c.stdout,
                     c.stderr, some url, none, c.fs, true, c.exit⟩
                  else
                    ⟨[.uploadedUrl url], [.clipboardError], none, none,
                     env.fs, true, .normal⟩
              else
                let c := file_cleanup env env.fs target
                ⟨c.stdout, c.stderr, none, none, c.fs, true, c.exit⟩
          | .IOError e =>
            ⟨[.ioError e], [], none, none, env.fs, true, .normal⟩
          | .ReqwestError e =>
            ⟨[.transportError e], [], none, none, env.fs, true, .normal⟩
          | .HTTPClientError code =>
            ⟨[.clientError code], [], none, none, env.fs, true, .normal⟩
          | .HTTPServerError code =>
            ⟨[.serverError code], [], none, none, env.fs, true, .normal⟩
  else
    if env.writeConfigOk then
      ⟨[.configDirCreated], [], none, some templateJson, env.fs, false,
       .normal⟩
    else
      ⟨[], [], none, none, env.fs, false,
       .panicked "Failed to write to configuration file please fill it out manually"⟩

/-! ## Helper lemmas -/

theorem md5Loop_eq_append (n : Nat) : (l acc : List Nat) →
    md5Loop n acc l = acc ++ l
  | [], acc => by simp [md5Loop]
  | x :: xs, acc => by
    rw [md5Loop, md5Loop_eq_append n (xs.drop n) (acc ++ x :: xs.take n)]
    simp
termination_by l => l.length
decreasing_by simp [List.length_drop]; omega

theorem file_cleanup_stderr_cases (env : MainEnv) (fs : FS) (file : String) :
    (file_cleanup env fs file).stderr = [] ∨
    (file_cleanup env fs file).stderr = [Msg.invalidChoice] := by
  unfold file_cleanup
  split
  · split
    · simp
    · split <;> simp
  · simp
  · simp

theorem file_cleanup_no_config_msg (env : MainEnv) (fs : FS) (file : String) :
    Msg.configReadError ∉ (file_cleanup env fs file).stderr := by
  rcases file_cleanup_stderr_cases env fs file with h | h <;> simp [h]

theorem file_cleanup_prompt (env : MainEnv) (fs : FS) (file : String) :
    Msg.promptDelete ∈ (file_cleanup env fs file).stdout := by
  unfold file_cleanup
  split
  · split
    · simp
    · split <;> simp
  · simp
  · simp

/-! ## Concrete environments used by witnesses and counterexamples -/

/-- A baseline run: config present and parsed, one file argument, a 200
response whose body parses to one URL, a working clipboard, stdin `n`. -/
def envBase : MainEnv where
  configDirExists := true
  writeConfigOk := true
  readFileResult := some "cfg"
  configParse := some ⟨"https://h", "T"⟩
  args := ["uppy", "f.txt"]
  currentDir := some "."
  formResult := .ok ()
  sendResult := .ok ⟨200, "body"⟩
  parseFiles := some ["https://h/abc"]
  clipboardOk := true
  stdinLine := "n"
  renameOk := true
  tempDir := "/tmp"
  fs := [("./f.txt", [48, 49, 50, 51, 52, 53, 54, 55, 56, 57])]

/-- As `envBase`, but the response body parses to zero URLs and stdin
answers `y` to the cleanup prompt. -/
def envEmptyFilesYes : MainEnv :=
  { envBase with parseFiles := some [], stdinLine := "y" }

/-- As `envBase`, but the response body parses to zero URLs. -/
def envEmptyFiles : MainEnv :=
  { envBase with parseFiles := some [] }

/-- As `envBase`, but stdin answers `y`. -/
def envYes : MainEnv := { envBase with stdinLine := "y" }

/-- As `envBase`, but stdin answers with an unrecognized token. -/
def envGarbled : MainEnv := { envBase with stdinLine := "maybe" }

/-- As `envBase`, but the config directory does not exist yet. -/
def envFirstRun : MainEnv := { envBase with configDirExists := false }

/-- As `envBase`, but invoked with no file-path argument. -/
def envNoArg : MainEnv := { envBase with args := ["uppy"] }

/-- The byte content of the baseline target file (`"0123456789"`). -/
def contentW : List Nat := [48, 49, 50, 51, 52, 53, 54, 55, 56, 57]

/-! ## Claim theorems -/

/-- C2: every call to `upload_file` produces exactly one of the five
outcome variants, selected by first match: a multipart form failure gives
`IOError`; a failed send gives `ReqwestError`; a completed 4xx response
gives `HTTPClientError` with that status; a completed 5xx response gives
`HTTPServerError` with that status; any other completed response gives
`Success` with the response. -/
theorem upload_file_classification (env : UploadEnv) :
    (∀ e, upload_file env = .IOError e ↔ env.formResult = .error e) ∧
    (∀ e, upload_file env = .ReqwestError e ↔
      env.formResult = .ok () ∧ env.sendResult = .error e) ∧
    (∀ code, upload_file env = .HTTPClientError code ↔
      env.formResult = .ok () ∧
        ∃ r, env.sendResult = .ok r ∧ r.status = code ∧
          is_client_error r.status = true) ∧
    (∀ code, upload_file env = .HTTPServerError code ↔
      env.formResult = .ok () ∧
        ∃ r, env.sendResult = .ok r ∧ r.status = code ∧
          is_client_error r.status = false ∧ is_server_error r.status = true) ∧
    (∀ r, upload_file env = .Success r ↔
      env.formResult = .ok () ∧ env.sendResult = .ok r ∧
        is_client_error r.status = false ∧ is_server_error r.status = false) := by
  obtain ⟨form, send⟩ := env
  cases form with
  | error e => simp [upload_file]
  | ok u =>
    cases u
    cases send with
    | error e => simp [upload_file]
    | ok r =>
      by_cases hc : is_client_error r.status <;>
        by_cases hs : is_server_error r.status <;>
        simp [upload_file, hc, hs]

/-- C2 witness: a completed 404 response is classified as a client error. -/
theorem upload_file_classification_witness :
    upload_file ⟨.ok (), .ok ⟨404, "b"⟩⟩ = .HTTPClientError 404 :=
  ((upload_file_classification ⟨.ok (), .ok ⟨404, "b"⟩⟩).2.2.1 404).mpr
    ⟨rfl, ⟨404, "b"⟩, rfl, rfl, rfl⟩

/-- C7: the `DeletionChoice` derived from one stdin line, after trimming
and lowercasing, is `Yes` exactly for `yes` and `y`, `No` exactly for
`no` and `n`, and `InvalidChoice` for every other input. -/
theorem parseDeletionChoice_spec (buf : String) :
    (parseDeletionChoice buf = .Yes ↔
      (rustTrimLower buf = "yes" ∨ rustTrimLower buf = "y")) ∧
    (parseDeletionChoice buf = .No ↔
      (rustTrimLower buf = "no" ∨ rustTrimLower buf = "n")) ∧
    (parseDeletionChoice buf = .InvalidChoice ↔
      ¬(rustTrimLower buf = "yes" ∨ rustTrimLower buf = "y" ∨
        rustTrimLower buf = "no" ∨ rustTrimLower buf = "n")) := by
  unfold parseDeletionChoice
  generalize rustTrimLower buf = t
  split
  · simp
  · simp
  · simp
  · simp
  · simp_all

/-- C7 witness: a padded, mixed-case affirmative line parses as `Yes`. -/
theorem parseDeletionChoice_spec_witness :
    parseDeletionChoice " YeS " = .Yes :=
  (parseDeletionChoice_spec " YeS ").1.mpr (by decide)

/-- C6: the MD5 digest computed by the cleanup read loop over fixed-size
chunks (the source uses 1024-byte chunks, `n = 1023`) equals the digest
of the whole content absorbed in one piece, for every chunk size and
every content. -/
theorem md5_chunked_eq_whole (n : Nat) (content : List Nat) :
    md5Hex (md5Loop n [] content) = md5Hex content := by
  rw [md5Loop_eq_append]; rfl

/-- C8: when the deletion choice is `No` or `InvalidChoice`, the
filesystem is unchanged, the prompt is printed exactly once (no
re-prompt), and only the invalid choice reports an error on stderr. -/
theorem cleanup_no_invalid_frame (env : MainEnv) (fs : FS) (file : String) :
    (parseDeletionChoice env.stdinLine = .No →
      file_cleanup env fs file = ⟨fs, [.promptDelete], [], .normal⟩) ∧
    (parseDeletionChoice env.stdinLine = .InvalidChoice →
      file_cleanup env fs file =
        ⟨fs, [.promptDelete], [.invalidChoice], .normal⟩) := by
  constructor <;> intro h <;> simp [file_cleanup, h]

/-- C8 witness: a `n` answer leaves the filesystem unchanged with no
stderr output; an unrecognized answer leaves it unchanged and reports an
invalid choice. -/
theorem cleanup_no_invalid_frame_witness :
    file_cleanup envBase envBase.fs "./f.txt" =
      ⟨envBase.fs, [.promptDelete], [], .normal⟩ ∧
    file_cleanup envGarbled envGarbled.fs "./f.txt" =
      ⟨envGarbled.fs, [.promptDelete], [.invalidChoice], .normal⟩ :=
  ⟨(cleanup_no_invalid_frame envBase envBase.fs "./f.txt").1 (by decide),
   (cleanup_no_invalid_frame envGarbled envGarbled.fs "./f.txt").2 (by decide)⟩

/-- C3: when the deletion choice is `Yes`, the digest is the MD5 of the
file's full byte stream, and the file is renamed (moved, with identical
content) to `temp_dir/{digest}.tmp`; a failed rename leaves the
filesystem unchanged and reports the error; a successful rename reports
completion. -/
theorem cleanup_yes_behavior (env : MainEnv) (fs : FS) (file : String)
    (content : List Nat)
    (hc : parseDeletionChoice env.stdinLine = .Yes)
    (hf : fsLookup fs file = some content) :
    md5Hex (md5Loop 1023 [] content) = md5Hex content ∧
    (env.renameOk = true →
      file_cleanup env fs file =
        ⟨(env.tempDir ++ "/" ++ md5Hex content ++ ".tmp", content) ::
           fsRemove fs file,
         [.promptDelete, .fileDeleted], [], .normal⟩) ∧
    (env.renameOk = false →
      file_cleanup env fs file =
        ⟨fs, [.promptDelete, .renameError], [], .normal⟩) := by
  have hdig : md5Loop 1023 [] content = content :=
    md5Loop_eq_append 1023 content []
  refine ⟨by rw [hdig], ?_, ?_⟩ <;> intro hr <;>
    simp [file_cleanup, hc, hf, hr, hdig]

/-- C3 witness: answering `y` over the baseline 10-byte file moves it to
the temp path named by its digest, with identical content. -/
theorem cleanup_yes_behavior_witness :
    file_cleanup envYes envYes.fs "./f.txt" =
      ⟨("/tmp" ++ "/" ++ md5Hex contentW ++ ".tmp", contentW) ::
         fsRemove envYes.fs "./f.txt",
       [.promptDelete, .fileDeleted], [], .normal⟩ :=
  (cleanup_yes_behavior envYes envYes.fs "./f.txt" contentW
    (by decide) (by decide)).2.1 rfl

/-- C9: `read_config` never returns the `Err` variant (read and parse
failures panic inside it), so the caller's diagnostic branch printing the
configuration-read error is unreachable in every run. -/
theorem read_config_never_err (env : MainEnv) :
    (∀ e, read_config env ≠ .ret (.error e)) ∧
    Msg.configReadError ∉ (mainRun env).stderr := by
  obtain ⟨dirEx, wOk, rf, cp, args, cwd, form, send, pf, clip, stdin, rOk,
    tmp, fs⟩ := env
  constructor
  · intro e h
    unfold read_config at h
    cases rf <;> cases cp <;> simp_all
  · cases dirEx
    · cases wOk <;> simp [mainRun]
    · cases rf
      · simp [mainRun, read_config]
      · cases cp
        · simp [mainRun, read_config]
        · simp only [mainRun, read_config]
          cases args[1]?
          · simp
          · cases cwd
            · simp
            · simp only []
              cases h : upload_file ⟨form, send⟩ <;> simp only [] <;> try simp
              cases pf
              · simp
              · rename_i files
                by_cases hl : files.length = 1 <;>
                  simp only [hl, if_true, if_false, reduceIte]
                · cases files.getLast?
                  · simp
                  · cases clip <;> simp
                    exact file_cleanup_no_config_msg _ _ _
                · exact file_cleanup_no_config_msg _ _ _

/-- C9 witness: instantiation at the baseline environment. -/
theorem read_config_never_err_witness :
    read_config envBase ≠ .ret (.error "e") ∧
    Msg.configReadError ∉ (mainRun envBase).stderr :=
  ⟨(read_config_never_err envBase).1 "e", (read_config_never_err envBase).2⟩

/-- C5: on first run (the per-user config directory is absent and the
template write succeeds), the program writes the template configuration
(`https://` host placeholder, empty token), reports the creation, and
returns without calling `upload_file`. -/
theorem first_run_bootstrap (env : MainEnv)
    (h1 : env.configDirExists = false) (h2 : env.writeConfigOk = true) :
    mainRun env =
      ⟨[.configDirCreated], [], none, some templateJson, env.fs, false,
       .normal⟩ := by
  simp [mainRun, h1, h2]

/-- C5 witness: the first-run environment writes the template and
performs no upload. -/
theorem first_run_bootstrap_witness :
    mainRun envFirstRun =
      ⟨[.configDirCreated], [], none, some templateJson, envFirstRun.fs,
       false, .normal⟩ :=
  first_run_bootstrap envFirstRun rfl rfl

/-- C10: invoked with no file-path argument (argument list of length
one), the program panics on the out-of-bounds index into the argument
vector, printing no diagnostic. -/
theorem missing_arg_panics (env : MainEnv) (s : String) (c : Configuration)
    (h1 : env.configDirExists = true)
    (h2 : env.readFileResult = some s)
    (h3 : env.configParse = some c)
    (h4 : env.args.length = 1) :
    mainRun env =
      ⟨[], [], none, none, env.fs, false,
       .panicked "index out of bounds"⟩ := by
  have harg : env.args[1]? = none := by
    rw [List.getElem?_eq_none]
    omega
  simp [mainRun, read_config, h1, h2, h3, harg]

/-- C10 witness: the argument-less invocation panics with no output. -/
theorem missing_arg_panics_witness :
    mainRun envNoArg =
      ⟨[], [], none, none, envNoArg.fs, false,
       .panicked "index out of bounds"⟩ :=
  missing_arg_panics envNoArg "cfg" ⟨"https://h", "T"⟩ rfl rfl rfl rfl

/-- C1 counterexample: in a run whose `Success` body parses to zero URLs,
the cleanup prompt is still reached and (stdin answering `y`) the
filesystem is modified, contradicting the claim that all downstream
stages including the cleanup prompt are skipped. -/
theorem response_cardinality_cex :
    Msg.promptDelete ∈ (mainRun envEmptyFilesYes).stdout ∧
    (mainRun envEmptyFilesYes).fs ≠ envEmptyFilesYes.fs := by
  decide

/-- C1 (amended): for a `Success` outcome whose body parses to zero or
two-or-more URLs, no URL is printed, the clipboard is not written and no
error is emitted by the URL stage, but the run is not over: it proceeds
directly into `file_cleanup` on the target file (so the cleanup prompt is
reached and the cleanup stage may touch the filesystem). -/
theorem response_cardinality_skip (env : MainEnv)
    (s cwd fileArg : String) (c : Configuration) (r : HttpResponse)
    (files : List String)
    (h1 : env.configDirExists = true)
    (h2 : env.readFileResult = some s)
    (h3 : env.configParse = some c)
    (h4 : env.args[1]? = some fileArg)
    (h5 : env.currentDir = some cwd)
    (h6 : upload_file ⟨env.formResult, env.sendResult⟩ = .Success r)
    (h7 : env.parseFiles = some files)
    (hlen : files.length ≠ 1) :
    mainRun env =
      ⟨(file_cleanup env env.fs (cwd ++ "/" ++ fileArg)).stdout,
       (file_cleanup env env.fs (cwd ++ "/" ++ fileArg)).stderr,
       none, none,
       (file_cleanup env env.fs (cwd ++ "/" ++ fileArg)).fs, true,
       (file_cleanup env env.fs (cwd ++ "/" ++ fileArg)).exit⟩ ∧
    (mainRun env).clipboard = none ∧
    Msg.promptDelete ∈ (mainRun env).stdout := by
  have hm : mainRun env =
      ⟨(file_cleanup env env.fs (cwd ++ "/" ++ fileArg)).stdout,
       (file_cleanup env env.fs (cwd ++ "/" ++ fileArg)).stderr,
       none, none,
       (file_cleanup env env.fs (cwd ++ "/" ++ fileArg)).fs, true,
       (file_cleanup env env.fs (cwd ++ "/" ++ fileArg)).exit⟩ := by
    simp [mainRun, read_config, h1, h2, h3, h4, h5, h6, h7, hlen]
  refine ⟨hm, by rw [hm], by rw [hm]; exact file_cleanup_prompt _ _ _⟩

/-- C1 witness: a zero-URL success run (stdin `n`) writes nothing to the
clipboard and still shows the cleanup prompt. -/
theorem response_cardinality_skip_witness :
    (mainRun envEmptyFiles).clipboard = none ∧
    Msg.promptDelete ∈ (mainRun envEmptyFiles).stdout :=
  (response_cardinality_skip envEmptyFiles "cfg" "." "f.txt"
    ⟨"https://h", "T"⟩ ⟨200, "body"⟩ []
    rfl rfl rfl rfl rfl (by decide) rfl (by decide)).2

/-- C4: for a `Success` outcome whose body parses to exactly one URL,
that URL is printed and written to the clipboard, after which the run
continues into the cleanup prompt; if the clipboard write fails, a
warning is reported on stderr and the run aborts with the filesystem
untouched and the cleanup prompt never reached. -/
theorem single_url_clipboard (env : MainEnv)
    (s cwd fileArg url : String) (c : Configuration) (r : HttpResponse)
    (h1 : env.configDirExists = true)
    (h2 : env.readFileResult = some s)
    (h3 : env.configParse = some c)
    (h4 : env.args[1]? = some fileArg)
    (h5 : env.currentDir = some cwd)
    (h6 : upload_file ⟨env.formResult, env.sendResult⟩ = .Success r)
    (h7 : env.parseFiles = some [url]) :
    (env.clipboardOk = true →
      mainRun env =
        ⟨[.uploadedUrl url, .copiedClipboard] ++
           (file_cleanup env env.fs (cwd ++ "/" ++ fileArg)).stdout,
         (file_cleanup env env.fs (cwd ++ "/" ++ fileArg)).stderr,
         some url, none,
         (file_cleanup env env.fs (cwd ++ "/" ++ fileArg)).fs, true,
         (file_cleanup env env.fs (cwd ++ "/" ++ fileArg)).exit⟩) ∧
    (env.clipboardOk = false →
      mainRun env =
        ⟨[.uploadedUrl url], [.clipboardError], none, none, env.fs, true,
         .normal⟩ ∧
      Msg.promptDelete ∉ (mainRun env).stdout) := by
  constructor
  · intro hclip
    simp [mainRun, read_config, h1, h2, h3, h4, h5, h6, h7, hclip]
  · intro hclip
    have hm : mainRun env =
        ⟨[.uploadedUrl url], [.clipboardError], none, none, env.fs, true,
         .normal⟩ := by
      simp [mainRun, read_config, h1, h2, h3, h4, h5, h6, h7, hclip]
    refine ⟨hm, by rw [hm]; simp⟩

/-- C4 witness: the baseline single-URL run ends with that URL on the
clipboard. -/
theorem single_url_clipboard_witness :
    (mainRun envBase).clipboard = some "https://h/abc" :=
  congrArg Trace.clipboard
    ((single_url_clipboard envBase "cfg" "." "f.txt" "https://h/abc"
      ⟨"https://h", "T"⟩ ⟨200, "body"⟩
      rfl rfl rfl rfl rfl (by decide) rfl).1 rfl)
